import Mathlib

/-!
Shallow embedding of the omniverse-market-api repository (Python/FastAPI):
provider connectors (src/ingestion/kalshi.py, src/ingestion/polymarket.py),
the normalized schema field layout (src/models/schemas.py) and the route
handlers (src/api/routes/markets.py, src/api/routes/ingest.py).

Modelling conventions:
  * Python floats become `ℚ` (no claim depends on float rounding).
  * Timestamps (ISO strings / `datetime.utcnow()`) become `PyTime := Int`;
    `datetime.utcnow()` is passed in explicitly as a `now` parameter and
    `timedelta(hours = k)` subtraction becomes integer subtraction.
    Timestamp literals from the inline fallback data become distinct
    named integer constants.
  * A Python `dict` produced by a connector becomes a structure whose
    fields are exactly the keys of the dict literal in the source.
  * Fallible operations (`open`/`json.load` in `_load_sample_data`, the
    awaited `get_markets` inside `sync_data`) are passed in as
    `Except PyErr _` values; a `try/except` block becomes a `match` on
    that value, mirroring the source's handler body.
  * All connector methods are modelled in mock mode (credentials absent),
    which is the mode every claim speaks about; the live branches of the
    source either recurse into the same sample-data path or return
    `None`/`[]`.
-/

/-- Python exception values, abstracted to their `str(e)` rendering. -/
abbrev PyErr := String

/-- Timestamps; models both ISO timestamp strings and `datetime.utcnow()`
values, with `timedelta` arithmetic as integer (hours) arithmetic. -/
abbrev PyTime := Int

section Retry

/-- Outcome of `async_retry` (kalshi.py lines 44-54, polymarket.py 35-45):
the wrapped function's value is returned, the last attempt's exception is
re-raised, or — when `max_retries ≤ 0` — the `for` loop body never runs and
the Python function falls through returning `None`. -/
inductive RetryResult (ε α : Type) where
  | ok : α → RetryResult ε α
  | raised : ε → RetryResult ε α
  | exhausted : RetryResult ε α
deriving DecidableEq, Repr

/-- Trace of one `async_retry` run: the outcome, the number of invocations
of `func`, and the list of back-off delays slept, in order. -/
structure RetryTrace (ε α : Type) where
  result : RetryResult ε α
  attempts : Nat
  delays : List ℚ
deriving DecidableEq, Repr

/-- The `for attempt in range(max_retries)` loop of `async_retry`.
`f n` is the outcome of the `(n+1)`-st invocation of `func` (0-indexed, as
the loop variable `attempt` is), `remaining = max_retries - attempt` is the
number of loop iterations left.  On success the value is returned; on
failure at the last iteration (`attempt == max_retries - 1`, i.e.
`remaining = 1`) the exception is re-raised; otherwise the loop sleeps
`base_delay * (2 ** attempt)` and retries. -/
def asyncRetryLoop (f : Nat → Except ε α) (base : ℚ) (attempt : Nat) :
    Nat → RetryTrace ε α
  | 0 => ⟨RetryResult.exhausted, 0, []⟩
  | remaining + 1 =>
    match f attempt with
    | Except.ok v => ⟨RetryResult.ok v, 1, []⟩
    | Except.error e =>
      match remaining with
      | 0 => ⟨RetryResult.raised e, 1, []⟩
      | r + 1 =>
        let rest := asyncRetryLoop f base (attempt + 1) (r + 1)
        ⟨rest.result, rest.attempts + 1, base * 2 ^ attempt :: rest.delays⟩

/-- `async_retry(func, max_retries, base_delay)` of both connectors
(kalshi.py 44-54 and polymarket.py 35-45 are identical):
runs the loop starting at `attempt = 0`. -/
def async_retry (f : Nat → Except ε α) (max_retries : Nat) (base_delay : ℚ) :
    RetryTrace ε α :=
  asyncRetryLoop f base_delay 0 max_retries

end Retry

section DataModel

/-- A market outcome dict as it appears in raw provider data; passed
through `normalize_market` unchanged (`raw_market.get("outcomes", [])`). -/
structure Outcome where
  id : String
  name : String
  price : ℚ
  volume : ℚ
deriving DecidableEq, Repr

/-- A raw provider market dict, with exactly the keys the two
`normalize_market` implementations access via `.get`; a key absent from
the dict is `none`. -/
structure RawMarket where
  id : Option String
  title : Option String
  question : Option String
  description : Option String
  provider : Option String
  status : Option String
  category : Option String
  tags : Option (List String)
  created_at : Option PyTime
  close_date : Option PyTime
  end_date : Option PyTime
  settle_date : Option PyTime
  outcomes : Option (List Outcome)
  total_volume : Option ℚ
  volume : Option ℚ
  liquidity : Option ℚ
deriving DecidableEq, Repr

/-- A normalized market dict: exactly the keys of the dict literal
returned by `normalize_market` (kalshi.py 93-118, polymarket.py 74-99). -/
structure Market where
  id : String
  title : String
  description : String
  provider : String
  status : String
  category : String
  created_at : PyTime
  close_date : Option PyTime
  settle_date : Option PyTime
  outcomes : List Outcome
  total_volume : ℚ
  liquidity : ℚ
deriving DecidableEq, Repr

/-- The sample dataset (`data/sample_timeseries.json` or the inline
fallback): the connectors only read its `"markets"` key
(`sample_data.get("markets", [])`, with a missing key behaving as `[]`). -/
structure SampleData where
  markets : List RawMarket
deriving DecidableEq, Repr

/-- `KalshiConnector.normalize_market` (kalshi.py 93-118).  `now` models
the `datetime.utcnow().isoformat()` default for `created_at`. -/
def kalshiNormalizeMarket (now : PyTime) (raw : RawMarket) : Market :=
  { id := raw.id.getD ""
    title := raw.title.getD ""
    description := raw.description.getD ""
    provider := "kalshi"
    status := raw.status.getD "active"
    category := raw.category.getD ""
    created_at := raw.created_at.getD now
    close_date := raw.close_date
    settle_date := raw.settle_date
    outcomes := raw.outcomes.getD []
    total_volume := raw.total_volume.getD 0
    liquidity := raw.liquidity.getD 0 }

/-- `PolymarketConnector.normalize_market` (polymarket.py 74-99): same
shape, with Polymarket-specific fallbacks — `question` for `title`,
first `tags` entry for `category` (empty when `tags` is falsy),
`end_date` for `close_date`, `volume` for `total_volume`. -/
def polymarketNormalizeMarket (now : PyTime) (raw : RawMarket) : Market :=
  { id := raw.id.getD ""
    title := raw.title.getD (raw.question.getD "")
    description := raw.description.getD ""
    provider := "polymarket"
    status := raw.status.getD "active"
    category := raw.category.getD
      (match raw.tags with
        | some (t :: _) => t
        | _ => "")
    created_at := raw.created_at.getD now
    close_date := (raw.close_date).orElse (fun _ => raw.end_date)
    settle_date := raw.settle_date
    outcomes := raw.outcomes.getD []
    total_volume := raw.total_volume.getD (raw.volume.getD 0)
    liquidity := raw.liquidity.getD 0 }

/-- Models the ISO literal "2024-01-01T00:00:00Z" of the fallback data. -/
def ts20240101 : PyTime := 2024010100

/-- Models the ISO literal "2024-11-05T23:59:59Z" of the fallback data. -/
def ts20241105 : PyTime := 2024110523

/-- Models the ISO literal "2024-12-31T23:59:59Z" of the fallback data. -/
def ts20241231 : PyTime := 2024123123

/-- The single market of `KalshiConnector._load_sample_data`'s inline
fallback dict (kalshi.py 56-91). -/
def kalshiFallbackRaw : RawMarket :=
  { id := some "KALSHI-PRES2024"
    title := some "Will Joe Biden win the 2024 US Presidential Election?"
    question := none
    description := some "Market resolves to Yes if Joe Biden wins"
    provider := some "kalshi"
    status := some "active"
    category := some "politics"
    tags := none
    created_at := some ts20240101
    close_date := some ts20241105
    end_date := none
    settle_date := none
    outcomes := some
      [⟨"yes", "Yes", 65 / 100, 1542050 / 100⟩,
       ⟨"no", "No", 35 / 100, 893025 / 100⟩]
    total_volume := some (2435075 / 100)
    volume := none
    liquidity := none }

/-- The fallback sample dataset of the Kalshi connector. -/
def kalshiFallbackSample : SampleData := ⟨[kalshiFallbackRaw]⟩

/-- The single market of `PolymarketConnector._load_sample_data`'s inline
fallback dict (polymarket.py 47-73). -/
def polymarketFallbackRaw : RawMarket :=
  { id := some "POLY-CRYPTO2024"
    title := some "Will Bitcoin reach $100,000 by end of 2024?"
    question := none
    description := some "Market resolves to Yes if Bitcoin reaches $100k"
    provider := some "polymarket"
    status := some "active"
    category := some "crypto"
    tags := none
    created_at := some ts20240101
    close_date := some ts20241231
    end_date := none
    settle_date := none
    outcomes := some
      [⟨"yes", "Yes", 42 / 100, 2875080 / 100⟩,
       ⟨"no", "No", 58 / 100, 1924060 / 100⟩]
    total_volume := some (4799140 / 100)
    volume := none
    liquidity := none }

/-- The fallback sample dataset of the Polymarket connector. -/
def polymarketFallbackSample : SampleData := ⟨[polymarketFallbackRaw]⟩

end DataModel

section Connectors

/-- A price dict of `get_market_price` (keys of the dict literal,
kalshi.py 177-181 / polymarket.py 168-172). -/
structure PriceDict where
  market_id : String
  timestamp : PyTime
  outcomes : List Outcome
deriving DecidableEq, Repr

/-- A data point of the mock timeseries (keys `timestamp`, `price`,
`volume` of the appended dict, kalshi.py 205-211). -/
structure TSPoint where
  timestamp : PyTime
  price : ℚ
  volume : ℚ
deriving DecidableEq, Repr

/-- The timeseries dict of `get_market_timeseries` (keys `market_id`,
`outcome_id`, `interval`, `data_points`). -/
structure TimeSeriesDict where
  market_id : String
  outcome_id : String
  interval : String
  data_points : List TSPoint
deriving DecidableEq, Repr

/-- One bid/ask entry of the mock orderbook (keys `price`, `size`). -/
structure OBEntry where
  price : ℚ
  size : ℚ
deriving DecidableEq, Repr

/-- The orderbook dict of `get_market_orderbook` (keys `market_id`,
`outcome_id`, `timestamp`, `bids`, `asks`, `spread`). -/
structure OrderBookDict where
  market_id : String
  outcome_id : String
  timestamp : PyTime
  bids : List OBEntry
  asks : List OBEntry
  spread : ℚ
deriving DecidableEq, Repr

/-- The `data` payload of a mock event (keys `outcome_id`, `price`,
`volume`, `side`). -/
structure EventData where
  outcome_id : String
  price : ℚ
  volume : ℚ
  side : String
deriving DecidableEq, Repr

/-- An event dict of `get_market_events` (keys `id`, `market_id`,
`event_type`, `timestamp`, `data`). -/
structure EventDict where
  id : String
  market_id : String
  event_type : String
  timestamp : PyTime
  data : EventData
deriving DecidableEq, Repr

/-- The dict returned by `sync_data` (kalshi.py 282-301 /
polymarket.py 257-276): the success dict has no `error` key (`none`
here); the except-branch dict carries `markets_synced = 0`,
`status = "error"` and `error = str(e)`. -/
structure SyncResult where
  provider : String
  markets_synced : Nat
  status : String
  error : Option String
  timestamp : PyTime
deriving DecidableEq, Repr

/-- `KalshiConnector.get_markets` in mock mode (kalshi.py 139-158).
`load` is the outcome of `_load_sample_data()`: `Except.ok` carries the
parsed dataset (file contents, or the inline fallback after a
`FileNotFoundError`), `Except.error` a load exception that
`_load_sample_data` does not catch (e.g. a JSON decode error), which the
method's own `except` turns into `[]`. -/
def kalshiGetMarkets (now : PyTime) (load : Except PyErr SampleData) :
    List Market :=
  match load with
  | Except.ok sd => sd.markets.map (kalshiNormalizeMarket now)
  | Except.error _ => []

/-- `PolymarketConnector.get_markets` in mock mode (polymarket.py
122-141), same shape as the Kalshi one. -/
def polymarketGetMarkets (now : PyTime) (load : Except PyErr SampleData) :
    List Market :=
  match load with
  | Except.ok sd => sd.markets.map (polymarketNormalizeMarket now)
  | Except.error _ => []

/-- `KalshiConnector.get_market` (kalshi.py 160-170): linear scan of
`get_markets()` for a matching `"id"`, `None` when absent. -/
def kalshiGetMarket (now : PyTime) (load : Except PyErr SampleData)
    (market_id : String) : Option Market :=
  (kalshiGetMarkets now load).find? (fun m => m.id == market_id)

/-- `PolymarketConnector.get_market` (polymarket.py 143-152). -/
def polymarketGetMarket (now : PyTime) (load : Except PyErr SampleData)
    (market_id : String) : Option Market :=
  (polymarketGetMarkets now load).find? (fun m => m.id == market_id)

/-- `KalshiConnector.get_market_price` (kalshi.py 172-187): `None` when
the market is unknown, else the current outcomes stamped with
`datetime.utcnow()`. -/
def kalshiGetMarketPrice (now : PyTime) (load : Except PyErr SampleData)
    (market_id : String) : Option PriceDict :=
  match kalshiGetMarket now load market_id with
  | none => none
  | some m => some ⟨market_id, now, m.outcomes⟩

/-- `PolymarketConnector.get_market_price` (polymarket.py 154-172). -/
def polymarketGetMarketPrice (now : PyTime) (load : Except PyErr SampleData)
    (market_id : String) : Option PriceDict :=
  match polymarketGetMarket now load market_id with
  | none => none
  | some m => some ⟨market_id, now, m.outcomes⟩

/-- `KalshiConnector.get_market_timeseries` in mock mode (kalshi.py
191-224): 24 hourly points ending at `now`, price `0.60 + i * 0.001`,
volume `100 + i * 10`; `start` and `end` are ignored, `interval` is
echoed. -/
def kalshiGetMarketTimeseries (now : PyTime) (market_id : String)
    (_start _end : Option String) (interval : String) :
    Option TimeSeriesDict :=
  some
    { market_id := market_id
      outcome_id := "yes"
      interval := interval
      data_points :=
        (List.range 24).map (fun i =>
          ⟨now - (23 - (i : Int)), 60 / 100 + (i : ℚ) * (1 / 1000),
           100 + (i : ℚ) * 10⟩) }

/-- `PolymarketConnector.get_market_timeseries` in mock mode
(polymarket.py 174-202): price `0.42 + i * 0.002`, volume
`150 + i * 15`. -/
def polymarketGetMarketTimeseries (now : PyTime) (market_id : String)
    (_start _end : Option String) (interval : String) :
    Option TimeSeriesDict :=
  some
    { market_id := market_id
      outcome_id := "yes"
      interval := interval
      data_points :=
        (List.range 24).map (fun i =>
          ⟨now - (23 - (i : Int)), 42 / 100 + (i : ℚ) * (2 / 1000),
           150 + (i : ℚ) * 15⟩) }

/-- `KalshiConnector.get_market_orderbook` in mock mode (kalshi.py
226-252): a fixed 2-bid / 2-ask book stamped with `utcnow()`; the
`depth` argument is accepted but unused. -/
def kalshiGetMarketOrderbook (now : PyTime) (market_id : String)
    (_depth : Nat) : Option OrderBookDict :=
  some
    { market_id := market_id
      outcome_id := "yes"
      timestamp := now
      bids := [⟨64 / 100, 100⟩, ⟨63 / 100, 250⟩]
      asks := [⟨66 / 100, 150⟩, ⟨67 / 100, 200⟩]
      spread := 2 / 100 }

/-- `PolymarketConnector.get_market_orderbook` in mock mode
(polymarket.py 204-228). -/
def polymarketGetMarketOrderbook (now : PyTime) (market_id : String)
    (_depth : Nat) : Option OrderBookDict :=
  some
    { market_id := market_id
      outcome_id := "yes"
      timestamp := now
      bids := [⟨41 / 100, 200⟩, ⟨40 / 100, 350⟩]
      asks := [⟨43 / 100, 180⟩, ⟨44 / 100, 220⟩]
      spread := 2 / 100 }

/-- `KalshiConnector.get_market_events` in mock mode (kalshi.py 254-280):
a single fixed trade event stamped with `utcnow()`; `since` and `limit`
are accepted but unused. -/
def kalshiGetMarketEvents (now : PyTime) (market_id : String)
    (_since : Option String) (_limit : Nat) : List EventDict :=
  [{ id := "evt_kalshi_123"
     market_id := market_id
     event_type := "trade"
     timestamp := now
     data := ⟨"yes", 65 / 100, 50, "buy"⟩ }]

/-- `PolymarketConnector.get_market_events` in mock mode
(polymarket.py 230-255). -/
def polymarketGetMarketEvents (now : PyTime) (market_id : String)
    (_since : Option String) (_limit : Nat) : List EventDict :=
  [{ id := "evt_poly_456"
     market_id := market_id
     event_type := "trade"
     timestamp := now
     data := ⟨"yes", 42 / 100, 75, "sell"⟩ }]

/-- `KalshiConnector.sync_data` (kalshi.py 282-301).  `marketsResult` is
the outcome of `await self.get_markets()` inside the `try` block: a
returned list, or an exception `e` that the `except` branch converts
into the error dict. -/
def kalshiSyncData (now : PyTime)
    (marketsResult : Except PyErr (List Market)) : SyncResult :=
  match marketsResult with
  | Except.ok markets => ⟨"kalshi", markets.length, "success", none, now⟩
  | Except.error e => ⟨"kalshi", 0, "error", some e, now⟩

/-- `PolymarketConnector.sync_data` (polymarket.py 257-276). -/
def polymarketSyncData (now : PyTime)
    (marketsResult : Except PyErr (List Market)) : SyncResult :=
  match marketsResult with
  | Except.ok markets => ⟨"polymarket", markets.length, "success", none, now⟩
  | Except.error e => ⟨"polymarket", 0, "error", some e, now⟩

end Connectors

section Routes

/-- The two providers wired into the route handlers. -/
inductive ProviderTag where
  | kalshi
  | polymarket
deriving DecidableEq, Repr

/-- Response of the `GET /api/v1/markets/{id}` handler: the envelope's
`data` on success, or the `HTTPException(404)` raised (and re-raised by
the `except HTTPException` clause) when neither connector has the
record. -/
inductive GetMarketResponse where
  | success : Market → GetMarketResponse
  | notFound : GetMarketResponse
deriving DecidableEq, Repr

/-- The `get_market` route handler (markets.py 80-101), parametrized by
each connector's `get_market` lookup.  Besides the response it returns
the list of connectors consulted, in call order: Kalshi is always called
first, Polymarket only when Kalshi returned a falsy (`None`) market. -/
def getMarketHandler (kalshiLookup polymarketLookup : String → Option Market)
    (market_id : String) : GetMarketResponse × List ProviderTag :=
  match kalshiLookup market_id with
  | some m => (GetMarketResponse.success m, [ProviderTag.kalshi])
  | none =>
    match polymarketLookup market_id with
    | some m =>
      (GetMarketResponse.success m,
       [ProviderTag.kalshi, ProviderTag.polymarket])
    | none =>
      (GetMarketResponse.notFound,
       [ProviderTag.kalshi, ProviderTag.polymarket])

/-- Python truthiness test `not s` for an optional string: `None` and the
empty string are falsy. -/
def strFalsy : Option String → Bool
  | none => true
  | some s => s.isEmpty

/-- Python's `str.lower()`: character-wise lowercasing. -/
def pyLower (s : String) : String := ⟨s.data.map Char.toLower⟩

/-- Python's substring test `needle in hay`. -/
def strContainsSub (hay needle : String) : Bool :=
  (List.range (hay.toList.length + 1)).any
    (fun i => needle.toList.isPrefixOf (hay.toList.drop i))

/-- Provider selection of the `get_markets` route (markets.py 52-60):
each connector's list is included when no provider filter is given
(falsy) or the lowercased filter names that provider. -/
def selectProviders (kalshiMarkets polymarketMarkets : List Market)
    (provider : Option String) : List Market :=
  (if strFalsy provider || (pyLower (provider.getD "") == "kalshi") then
    kalshiMarkets
  else []) ++
  (if strFalsy provider || (pyLower (provider.getD "") == "polymarket") then
    polymarketMarkets
  else [])

/-- Status filter of the `get_markets` route (markets.py 63-66):
case-insensitive equality on the `status` field, applied only when the
query parameter is truthy. -/
def applyStatusFilter (status : Option String) (ms : List Market) :
    List Market :=
  if strFalsy status then ms
  else ms.filter (fun m => pyLower m.status == pyLower (status.getD ""))

/-- Search filter of the `get_markets` route (markets.py 68-69):
case-insensitive substring match on the title, applied only when the
query parameter is truthy. -/
def applyQueryFilter (q : Option String) (ms : List Market) : List Market :=
  if strFalsy q then ms
  else ms.filter (fun m => strContainsSub (pyLower m.title) (pyLower (q.getD "")))

/-- The `get_markets` route handler (markets.py 33-73), parametrized by
the two connectors' `get_markets()` results; returns the envelope's
`data` list. -/
def getMarketsHandler (kalshiMarkets polymarketMarkets : List Market)
    (provider status q : Option String) : List Market :=
  applyQueryFilter q
    (applyStatusFilter status
      (selectProviders kalshiMarkets polymarketMarkets provider))

end Routes

section SchemaFields

/-- Field names declared by the pydantic model `MarketMeta`
(src/models/schemas.py 31-67), in declaration order. -/
def marketMetaFields : List String :=
  ["id", "title", "description", "provider", "status", "category",
   "created_at", "close_date", "settle_date", "outcomes", "total_volume",
   "liquidity"]

/-- Field names declared by the pydantic model `PricePoint`
(src/models/schemas.py 70-76). -/
def pricePointFields : List String :=
  ["timestamp", "price", "volume", "outcome_id"]

/-- Field names declared by the pydantic model `TimeSeries`
(src/models/schemas.py 78-84). -/
def timeSeriesFields : List String :=
  ["market_id", "outcome_id", "interval", "data_points"]

/-- Field names declared by the pydantic model `OrderBook`
(src/models/schemas.py 115-123). -/
def orderBookFields : List String :=
  ["market_id", "outcome_id", "timestamp", "bids", "asks", "spread"]

/-- Field names declared by the pydantic model `EventRecord`
(src/models/schemas.py 143-150). -/
def eventRecordFields : List String :=
  ["id", "market_id", "event_type", "timestamp", "data"]

end SchemaFields

section Projections

/-- The time-independent content of an orderbook response: every field of
the mock orderbook dict except the `utcnow()` timestamp. -/
def obStatic : Option OrderBookDict →
    Option (String × String × List OBEntry × List OBEntry × ℚ)
  | none => none
  | some ob => some (ob.market_id, ob.outcome_id, ob.bids, ob.asks, ob.spread)

/-- The time-independent content of a timeseries response: ids, interval,
and the (price, volume) sequence of its data points, dropping the
`utcnow()`-anchored timestamps. -/
def tsStatic : Option TimeSeriesDict →
    Option (String × String × String × List (ℚ × ℚ))
  | none => none
  | some ts =>
    some (ts.market_id, ts.outcome_id, ts.interval,
      ts.data_points.map (fun p => (p.price, p.volume)))

/-- The time-independent content of an events response: everything but
the `utcnow()` timestamps. -/
def evStatic (evs : List EventDict) :
    List (String × String × String × EventData) :=
  evs.map (fun ev => (ev.id, ev.market_id, ev.event_type, ev.data))

end Projections

section Helpers

lemma kalshiGetMarkets_provider (now : PyTime)
    (load : Except PyErr SampleData) (m : Market)
    (hm : m ∈ kalshiGetMarkets now load) : m.provider = "kalshi" := by
  cases load with
  | ok sd =>
    simp only [kalshiGetMarkets, List.mem_map] at hm
    obtain ⟨raw, _, rfl⟩ := hm
    rfl
  | error e => simp [kalshiGetMarkets] at hm

lemma polymarketGetMarkets_provider (now : PyTime)
    (load : Except PyErr SampleData) (m : Market)
    (hm : m ∈ polymarketGetMarkets now load) : m.provider = "polymarket" := by
  cases load with
  | ok sd =>
    simp only [polymarketGetMarkets, List.mem_map] at hm
    obtain ⟨raw, _, rfl⟩ := hm
    rfl
  | error e => simp [polymarketGetMarkets] at hm

lemma applyStatusFilter_subset (status : Option String) (ms : List Market)
    (m : Market) (hm : m ∈ applyStatusFilter status ms) : m ∈ ms := by
  unfold applyStatusFilter at hm
  by_cases h : strFalsy status = true
  · simpa [h] using hm
  · simp only [h] at hm
    simp only [Bool.false_eq_true, if_false] at hm
    exact List.mem_of_mem_filter hm

lemma applyQueryFilter_subset (q : Option String) (ms : List Market)
    (m : Market) (hm : m ∈ applyQueryFilter q ms) : m ∈ ms := by
  unfold applyQueryFilter at hm
  by_cases h : strFalsy q = true
  · simpa [h] using hm
  · simp only [h] at hm
    simp only [Bool.false_eq_true, if_false] at hm
    exact List.mem_of_mem_filter hm

lemma selectProviders_kalshi (kms pms : List Market) (m : Market)
    (hm : m ∈ selectProviders kms pms (some "kalshi")) : m ∈ kms := by
  have h1 : strFalsy (some "kalshi") = false := by decide
  have h2 : (pyLower ((some "kalshi").getD "") == "kalshi") = true := by
    decide
  have h3 : (pyLower ((some "kalshi").getD "") == "polymarket") = false := by
    decide
  unfold selectProviders at hm
  rw [h1, h2, h3] at hm
  simpa using hm

end Helpers

section Claims

/-- C1: for every wrapped function behaviour and every base delay,
`async_retry` (default `max_retries = 3`) makes at most 3 attempts, sleeps
`base * 2 ^ attempt` after each failed non-final attempt (so its delay
list is `base * 2 ^ 0, base * 2 ^ 1, ...`, one entry per failed attempt
before the last one made), and when all three attempts fail it re-raises
the exception of the final (3rd) attempt. -/
theorem retry_c1 {ε α : Type} (f : Nat → Except ε α) (base : ℚ) :
    (async_retry f 3 base).attempts ≤ 3 ∧
    (async_retry f 3 base).delays =
      (List.range ((async_retry f 3 base).attempts - 1)).map
        (fun i => base * 2 ^ i) ∧
    (∀ e0 e1 e2, f 0 = Except.error e0 → f 1 = Except.error e1 →
      f 2 = Except.error e2 →
      (async_retry f 3 base).result = RetryResult.raised e2) := by
  rcases h0 : f 0 with e0 | v0
  · rcases h1 : f 1 with e1 | v1
    · rcases h2 : f 2 with e2 | v2
      · refine ⟨?_, ?_, ?_⟩ <;>
          simp [async_retry, asyncRetryLoop, h0, h1, h2, List.range_succ]
      · refine ⟨?_, ?_, ?_⟩ <;>
          simp [async_retry, asyncRetryLoop, h0, h1, h2, List.range_succ]
    · refine ⟨?_, ?_, ?_⟩ <;>
        simp [async_retry, asyncRetryLoop, h0, h1, List.range_succ]
  · refine ⟨?_, ?_, ?_⟩ <;>
      simp [async_retry, asyncRetryLoop, h0, List.range_succ]

/-- Witness for C1: with a function that fails on every attempt with
exception "boom", the third attempt's exception is re-raised. -/
theorem retry_c1_witness :
    (async_retry (fun _ => (Except.error "boom" : Except String Nat))
        3 1).result = RetryResult.raised "boom" :=
  (retry_c1 (fun _ => (Except.error "boom" : Except String Nat)) 1).2.2
    "boom" "boom" "boom" rfl rfl rfl

/-- C2: a function failing on its first two invocations and returning `v`
on its third makes `async_retry` (default `max_retries = 3`) return `v`,
with exactly 2 back-off delays slept before the success, one after each
failed attempt. -/
theorem retry_c2 {ε α : Type} (f : Nat → Except ε α) (base : ℚ) (v : α)
    (e0 e1 : ε) (h0 : f 0 = Except.error e0) (h1 : f 1 = Except.error e1)
    (h2 : f 2 = Except.ok v) :
    (async_retry f 3 base).result = RetryResult.ok v ∧
    (async_retry f 3 base).delays = [base * 2 ^ 0, base * 2 ^ 1] ∧
    (async_retry f 3 base).delays.length = 2 := by
  refine ⟨?_, ?_, ?_⟩ <;> simp [async_retry, asyncRetryLoop, h0, h1, h2]

/-- Witness for C2: a concrete function failing twice with "boom" then
returning 42 yields 42 after delays 1 and 2 (base delay 1). -/
theorem retry_c2_witness :
    (async_retry
        (fun n => if n < 2 then Except.error "boom" else Except.ok 42)
        3 1).result = RetryResult.ok (42 : Nat) ∧
    (async_retry
        (fun n => if n < 2 then Except.error "boom" else Except.ok 42)
        3 1).delays.length = 2 := by
  have h := retry_c2
    (fun n => if n < 2 then Except.error "boom" else Except.ok (42 : Nat))
    1 42 "boom" "boom" rfl rfl rfl
  exact ⟨h.1, h.2.2⟩

/-- C3: the `GET /api/v1/markets/{id}` handler answers 404 whenever
neither connector returns a record for the id; it always consults the
Kalshi connector first, and consults the Polymarket connector exactly
when Kalshi returned no record. -/
theorem getMarket_c3 (kalshiLookup polymarketLookup : String → Option Market)
    (market_id : String) :
    (kalshiLookup market_id = none → polymarketLookup market_id = none →
      (getMarketHandler kalshiLookup polymarketLookup market_id).1 =
        GetMarketResponse.notFound) ∧
    (getMarketHandler kalshiLookup polymarketLookup market_id).2.head? =
      some ProviderTag.kalshi ∧
    (ProviderTag.polymarket ∈
        (getMarketHandler kalshiLookup polymarketLookup market_id).2 ↔
      kalshiLookup market_id = none) := by
  rcases hk : kalshiLookup market_id with _ | m
  · rcases hp : polymarketLookup market_id with _ | m'
    · simp [getMarketHandler, hk, hp]
    · simp [getMarketHandler, hk, hp]
  · simp [getMarketHandler, hk]

/-- Witness for C3: with connectors that know no market at all, looking
up "NONEXISTENT" yields the 404 response. -/
theorem getMarket_c3_witness :
    (getMarketHandler (fun _ => none) (fun _ => none) "NONEXISTENT").1 =
      GetMarketResponse.notFound :=
  (getMarket_c3 (fun _ => none) (fun _ => none) "NONEXISTENT").1 rfl rfl

/-- Counterexample to C4 as stated: `sync_data`'s except-branch does not
return an empty/`None` result — at the concrete internal error "boom" it
returns a structured dict with `status = "error"` and the error message,
and the caller can distinguish which failure occurred (results for
distinct errors differ). -/
theorem connector_errors_c4_counterexample :
    (kalshiSyncData 0 (Except.error "boom")).status = "error" ∧
    (kalshiSyncData 0 (Except.error "boom")).error = some "boom" ∧
    kalshiSyncData 0 (Except.error "boom") ≠
      kalshiSyncData 0 (Except.error "other") := by
  refine ⟨rfl, rfl, ?_⟩
  decide

/-- C4 (amended): every connector query method converts internal errors
into empty/`None` results (`[]` for `get_markets`, `None` for
`get_market` and `get_market_price`), and no exception propagates; but
`sync_data` is the exception to the empty/`None` rule — its except-branch
returns a structured dict with the provider name, `markets_synced = 0`,
`status = "error"`, the error message `str(e)`, and a timestamp. -/
theorem connector_errors_c4 (now : PyTime) (e : PyErr)
    (market_id : String) :
    kalshiGetMarkets now (Except.error e) = [] ∧
    polymarketGetMarkets now (Except.error e) = [] ∧
    kalshiGetMarket now (Except.error e) market_id = none ∧
    polymarketGetMarket now (Except.error e) market_id = none ∧
    kalshiGetMarketPrice now (Except.error e) market_id = none ∧
    polymarketGetMarketPrice now (Except.error e) market_id = none ∧
    kalshiSyncData now (Except.error e) =
      ⟨"kalshi", 0, "error", some e, now⟩ ∧
    polymarketSyncData now (Except.error e) =
      ⟨"polymarket", 0, "error", some e, now⟩ :=
  ⟨rfl, rfl, rfl, rfl, rfl, rfl, rfl, rfl⟩

/-- Counterexample to C5 as stated: mock-mode connector methods are not
functions of their arguments alone — two invocations with identical
arguments but different `datetime.utcnow()` readings return different
results, because the mock responses embed the current time. -/
theorem mock_determinism_c5_counterexample :
    polymarketGetMarketOrderbook 0 "POLY-CRYPTO2024" 10 ≠
      polymarketGetMarketOrderbook 1 "POLY-CRYPTO2024" 10 ∧
    kalshiGetMarketTimeseries 0 "KALSHI-PRES2024" none none "1h" ≠
      kalshiGetMarketTimeseries 1 "KALSHI-PRES2024" none none "1h" := by
  constructor <;> decide

/-- C5 (amended): in mock mode the connector methods are deterministic
given their arguments and the invocation time, and all served content
apart from the embedded `utcnow()` timestamps is static: across any two
invocation times the orderbook ids, bids, asks and spread, the timeseries
ids, interval and (price, volume) points, and the event ids, types and
payloads are identical. -/
theorem mock_static_c5 (market_id : String) (depth : Nat) (t1 t2 : PyTime)
    (tsStart tsEnd : Option String) (interval : String)
    (since : Option String) (limit : Nat) :
    obStatic (kalshiGetMarketOrderbook t1 market_id depth) =
      obStatic (kalshiGetMarketOrderbook t2 market_id depth) ∧
    obStatic (polymarketGetMarketOrderbook t1 market_id depth) =
      obStatic (polymarketGetMarketOrderbook t2 market_id depth) ∧
    tsStatic (kalshiGetMarketTimeseries t1 market_id tsStart tsEnd interval) =
      tsStatic (kalshiGetMarketTimeseries t2 market_id tsStart tsEnd interval) ∧
    tsStatic
        (polymarketGetMarketTimeseries t1 market_id tsStart tsEnd interval) =
      tsStatic
        (polymarketGetMarketTimeseries t2 market_id tsStart tsEnd interval) ∧
    evStatic (kalshiGetMarketEvents t1 market_id since limit) =
      evStatic (kalshiGetMarketEvents t2 market_id since limit) ∧
    evStatic (polymarketGetMarketEvents t1 market_id since limit) =
      evStatic (polymarketGetMarketEvents t2 market_id since limit) := by
  refine ⟨rfl, rfl, ?_, ?_, rfl, rfl⟩ <;>
    simp [kalshiGetMarketTimeseries, polymarketGetMarketTimeseries,
      tsStatic, List.map_map, Function.comp]

/-- C6: in mock mode, `sync_data` of each provider returns
`status = "success"` and a non-negative `markets_synced` equal to the
number of markets fetched by `get_markets`. -/
theorem syncData_c6 (now : PyTime) (loadK loadP : Except PyErr SampleData) :
    (kalshiSyncData now (Except.ok (kalshiGetMarkets now loadK))).status =
      "success" ∧
    (kalshiSyncData now
        (Except.ok (kalshiGetMarkets now loadK))).markets_synced =
      (kalshiGetMarkets now loadK).length ∧
    0 ≤ (kalshiSyncData now
        (Except.ok (kalshiGetMarkets now loadK))).markets_synced ∧
    (polymarketSyncData now
        (Except.ok (polymarketGetMarkets now loadP))).status = "success" ∧
    (polymarketSyncData now
        (Except.ok (polymarketGetMarkets now loadP))).markets_synced =
      (polymarketGetMarkets now loadP).length ∧
    0 ≤ (polymarketSyncData now
        (Except.ok (polymarketGetMarkets now loadP))).markets_synced :=
  ⟨rfl, rfl, Nat.zero_le _, rfl, rfl, Nat.zero_le _⟩

/-- Counterexample to C7 as stated: not every record schema carries a
`provider` tag — the `MarketMeta` schema declares one, but the
`TimeSeries`, `OrderBook`, `PricePoint` and `EventRecord` schemas do
not. -/
theorem provider_tag_c7_counterexample :
    "provider" ∈ marketMetaFields ∧
    "provider" ∉ timeSeriesFields ∧
    "provider" ∉ orderBookFields ∧
    "provider" ∉ pricePointFields ∧
    "provider" ∉ eventRecordFields := by
  decide

/-- C7 (amended): only Market records carry a `provider` tag, which
normalization forces to the owning connector's constant; TimeSeries,
OrderBook, PricePoint and Event records carry no provider field and are
tied to their market only through a `market_id` string; market IDs stay
plain provider-namespaced strings and no cross-provider merging of a
market's identity occurs. -/
theorem provider_tag_c7 (now : PyTime) (raw : RawMarket) :
    "provider" ∈ marketMetaFields ∧
    "provider" ∉ timeSeriesFields ∧
    "provider" ∉ orderBookFields ∧
    "provider" ∉ pricePointFields ∧
    "provider" ∉ eventRecordFields ∧
    "market_id" ∈ timeSeriesFields ∧
    "market_id" ∈ orderBookFields ∧
    "market_id" ∉ pricePointFields ∧
    "market_id" ∈ eventRecordFields ∧
    (kalshiNormalizeMarket now raw).provider = "kalshi" ∧
    (polymarketNormalizeMarket now raw).provider = "polymarket" := by
  exact ⟨by decide, by decide, by decide, by decide, by decide, by decide,
    by decide, by decide, by decide, rfl, rfl⟩

/-- C8: every market in the `GET /api/v1/markets` response for a query
with `provider=kalshi` has `provider = "kalshi"`, for every sample-data
load outcome and every further status/search filter. -/
theorem markets_filter_c8 (now : PyTime)
    (loadK loadP : Except PyErr SampleData) (status q : Option String)
    (m : Market)
    (hm : m ∈ getMarketsHandler (kalshiGetMarkets now loadK)
        (polymarketGetMarkets now loadP) (some "kalshi") status q) :
    m.provider = "kalshi" :=
  kalshiGetMarkets_provider now loadK m
    (selectProviders_kalshi _ _ _
      (applyStatusFilter_subset _ _ _ (applyQueryFilter_subset _ _ _ hm)))

/-- Witness for C8: with both connectors on their inline fallback data and
no further filters, the normalized Kalshi fallback market is in the
`provider=kalshi` response, and its provider is "kalshi". -/
theorem markets_filter_c8_witness :
    kalshiNormalizeMarket 0 kalshiFallbackRaw ∈
      getMarketsHandler (kalshiGetMarkets 0 (Except.ok kalshiFallbackSample))
        (polymarketGetMarkets 0 (Except.ok polymarketFallbackSample))
        (some "kalshi") none none ∧
    (kalshiNormalizeMarket 0 kalshiFallbackRaw).provider = "kalshi" := by
  have hmem : kalshiNormalizeMarket 0 kalshiFallbackRaw ∈
      getMarketsHandler (kalshiGetMarkets 0 (Except.ok kalshiFallbackSample))
        (polymarketGetMarkets 0 (Except.ok polymarketFallbackSample))
        (some "kalshi") none none := by
    simp [getMarketsHandler, applyQueryFilter, applyStatusFilter,
      selectProviders, strFalsy, kalshiGetMarkets, kalshiFallbackSample]
    exact Or.inl (Or.inr (by decide))
  exact ⟨hmem, markets_filter_c8 0 _ _ none none _ hmem⟩

/-- C9: `normalize_market` of each connector sets the output `provider`
to its own constant for every raw market, regardless of the raw input's
own `provider` value, so each connector relabels as its own every market
of whatever sample dataset it loads. -/
theorem normalize_provider_c9 (now : PyTime) (raw : RawMarket)
    (sd : SampleData) :
    (kalshiNormalizeMarket now raw).provider = "kalshi" ∧
    (polymarketNormalizeMarket now raw).provider = "polymarket" ∧
    (∀ m ∈ kalshiGetMarkets now (Except.ok sd), m.provider = "kalshi") ∧
    (∀ m ∈ polymarketGetMarkets now (Except.ok sd),
      m.provider = "polymarket") := by
  refine ⟨rfl, rfl, ?_, ?_⟩
  · intro m hm
    exact kalshiGetMarkets_provider now _ m hm
  · intro m hm
    exact polymarketGetMarkets_provider now _ m hm

/-- Witness for C9: the Kalshi connector loading a dataset holding the
Polymarket fallback market (raw `provider` field "polymarket") serves it
relabelled with provider "kalshi". -/
theorem normalize_provider_c9_witness :
    polymarketFallbackRaw.provider = some "polymarket" ∧
    kalshiNormalizeMarket 0 polymarketFallbackRaw ∈
      kalshiGetMarkets 0 (Except.ok ⟨[polymarketFallbackRaw]⟩) ∧
    (kalshiNormalizeMarket 0 polymarketFallbackRaw).provider = "kalshi" := by
  have hmem : kalshiNormalizeMarket 0 polymarketFallbackRaw ∈
      kalshiGetMarkets 0 (Except.ok ⟨[polymarketFallbackRaw]⟩) := by
    simp [kalshiGetMarkets]
  exact ⟨rfl, hmem,
    (normalize_provider_c9 0 polymarketFallbackRaw
      ⟨[polymarketFallbackRaw]⟩).2.2.1 _ hmem⟩

/-- C10: in mock mode the `depth` argument of `get_market_orderbook` and
the `since`/`limit` arguments of `get_market_events` do not affect the
returned data; the orderbooks always hold exactly 2 bids and 2 asks and
the event lists exactly 1 event. -/
theorem mock_params_c10 (now : PyTime) (market_id : String) (d1 d2 : Nat)
    (s1 s2 : Option String) (l1 l2 : Nat) :
    kalshiGetMarketOrderbook now market_id d1 =
      kalshiGetMarketOrderbook now market_id d2 ∧
    polymarketGetMarketOrderbook now market_id d1 =
      polymarketGetMarketOrderbook now market_id d2 ∧
    (kalshiGetMarketOrderbook now market_id d1).map
        (fun ob => (ob.bids.length, ob.asks.length)) = some (2, 2) ∧
    (polymarketGetMarketOrderbook now market_id d1).map
        (fun ob => (ob.bids.length, ob.asks.length)) = some (2, 2) ∧
    kalshiGetMarketEvents now market_id s1 l1 =
      kalshiGetMarketEvents now market_id s2 l2 ∧
    polymarketGetMarketEvents now market_id s1 l1 =
      polymarketGetMarketEvents now market_id s2 l2 ∧
    (kalshiGetMarketEvents now market_id s1 l1).length = 1 ∧
    (polymarketGetMarketEvents now market_id s1 l1).length = 1 :=
  ⟨rfl, rfl, rfl, rfl, rfl, rfl, rfl, rfl⟩

end Claims
